import Mathlib

/-!
Shallow embedding of `simple_sqs_client` (src/src/simple_sqs_client/client.py and
builder.py) and proofs about its specified behaviour.

The transport (boto3 / botocore) is an external collaborator: we model each call to
`self.sqs.receive_message` by an oracle `outcomes : Nat → PollOutcome α` giving the
outcome of the i-th poll issued during one `read_events_with_retry` call, and we record
the observable side effects (polls issued, `_init_client` reconnects) as an event trace.
Messages are opaque to the client, hence the type parameter `α`.
-/

namespace SimpleSqsClient

/-- Outcome of one `self.sqs.receive_message(...)` call.
`success ms` models a normal return whose `response.get('Messages', [])` yields
`ms.getD []` (the `Messages` key may be absent, which the code turns into `[]`);
`waiterError info` models `botocore.exceptions.WaiterError` (the transient class the
code catches); `otherError e` models any other exception raised by the transport. -/
inductive PollOutcome (α : Type) where
  | success (messages : Option (List α))
  | waiterError (info : String)
  | otherError (e : String)
deriving DecidableEq, Repr

/-- Errors a `read_events_with_retry` call can raise to its caller:
`httpClientError` is the `raise HTTPClientError` at retry exhaustion (the spec calls
this `RetryExhaustedError`); `propagated e` is a transport exception other than
`WaiterError`, re-raised unmodified because the `except WaiterError` clause does not
match it. -/
inductive ClientError where
  | httpClientError
  | propagated (e : String)
deriving DecidableEq, Repr

/-- How one `read_events_with_retry` call ends: with a message list (`return messages`),
with an exception (`raised`), or by falling off the end of the `while` loop, which in
Python returns `None` (`noneReturn`). -/
inductive ReadResult (α : Type) where
  | messages (ms : List α)
  | raised (e : ClientError)
  | noneReturn
deriving DecidableEq, Repr

/-- Observable side effects of the loop body, in order: a `self.sqs.receive_message`
call (`poll`) or a `self._init_client()` transport rebuild (`reconnect`). -/
inductive Event where
  | poll
  | reconnect
deriving DecidableEq, Repr, BEq

/-- Number of transport polls in a trace. -/
def pollCount (t : List Event) : Nat := t.count Event.poll

/-- Number of reconnects (transport handle rebuilds) in a trace. -/
def reconnectCount (t : List Event) : Nat := t.count Event.reconnect

/-- The `while retry_attempt <= max_retry_attempts` loop of
`SQSClient.read_events_with_retry`, entered with counter value `retry_attempt` after
`pollIdx` polls have already been issued.  Mirrors the source line by line:
on success return `response.get('Messages', [])`; on `WaiterError` call
`_init_client()` (the `reconnect` event, emitted before the counter check), then
`raise HTTPClientError` if `retry_attempt == max_retry_attempts`, else increment and
loop; any other exception propagates out of the `try` unmodified with no reconnect.
Python `int` counters are embedded as `Int`. -/
def readEventsLoop {α : Type} (outcomes : Nat → PollOutcome α)
    (max_retry_attempts retry_attempt : Int) (pollIdx : Nat) :
    ReadResult α × List Event :=
  if _hle : retry_attempt ≤ max_retry_attempts then
    match outcomes pollIdx with
    | .success ms => (.messages (ms.getD []), [.poll])
    | .waiterError _ =>
        if heq : retry_attempt = max_retry_attempts then
          (.raised .httpClientError, [.poll, .reconnect])
        else
          let rest := readEventsLoop outcomes max_retry_attempts (retry_attempt + 1) (pollIdx + 1)
          (rest.1, .poll :: .reconnect :: rest.2)
    | .otherError e => (.raised (.propagated e), [.poll])
  else
    (.noneReturn, [])
termination_by (max_retry_attempts + 1 - retry_attempt).toNat
decreasing_by
  omega

/-- `SQSClient.read_events_with_retry(max_retry_attempts, ...)`: initializes
`retry_attempt = 1` and runs the loop.  Returns the call's result together with the
trace of polls and reconnects it performed. -/
def read_events_with_retry {α : Type} (outcomes : Nat → PollOutcome α)
    (max_retry_attempts : Int) : ReadResult α × List Event :=
  readEventsLoop outcomes max_retry_attempts 1 0

end SimpleSqsClient

namespace SimpleSqsClient

/-- C1: a first-attempt success returns `response.get('Messages', [])` at once,
with exactly one poll and no reconnect — also when the message list is empty. -/
theorem read_first_success_immediate {α : Type} (outcomes : Nat → PollOutcome α)
    (max_retry_attempts : Int) (hmax : 1 ≤ max_retry_attempts)
    (ms : Option (List α)) (h0 : outcomes 0 = .success ms) :
    read_events_with_retry outcomes max_retry_attempts =
      (.messages (ms.getD []), [.poll]) := by
  rw [read_events_with_retry, readEventsLoop.eq_def]
  simp [hmax, h0]

/-- C1 witness: a first poll returning a response without a `Messages` key, under
`max_retry_attempts = 3`, yields the empty list after one poll and zero reconnects. -/
theorem read_first_success_immediate_witness :
    read_events_with_retry (fun _ => PollOutcome.success (none : Option (List Nat))) 3 =
      (.messages [], [.poll]) :=
  read_first_success_immediate _ 3 (by decide) none rfl

/-- C2: with `max_retry_attempts = 3`, transient `WaiterError`s on polls 1 and 2 and a
success on poll 3 return the attempt-3 message list after exactly 3 polls and exactly
2 reconnects, one after each transient failure. -/
theorem read_two_transients_then_success {α : Type} (outcomes : Nat → PollOutcome α)
    (s0 s1 : String) (ms : Option (List α))
    (h0 : outcomes 0 = .waiterError s0) (h1 : outcomes 1 = .waiterError s1)
    (h2 : outcomes 2 = .success ms) :
    read_events_with_retry outcomes 3 =
        (.messages (ms.getD []), [.poll, .reconnect, .poll, .reconnect, .poll]) ∧
      reconnectCount (read_events_with_retry outcomes 3).2 = 2 ∧
      pollCount (read_events_with_retry outcomes 3).2 = 3 := by
  have htr : read_events_with_retry outcomes 3 =
      (.messages (ms.getD []), [.poll, .reconnect, .poll, .reconnect, .poll]) := by
    rw [read_events_with_retry, readEventsLoop.eq_def]
    simp only [h0]
    norm_num
    rw [readEventsLoop.eq_def]
    simp only [h1]
    norm_num
    rw [readEventsLoop.eq_def]
    simp only [h2]
    norm_num
  refine ⟨htr, ?_, ?_⟩ <;> rw [htr] <;> rfl

/-- C2 witness: a concrete outcome sequence (two transient failures, then one message)
run at `max_retry_attempts = 3`. -/
theorem read_two_transients_then_success_witness :
    read_events_with_retry
        (fun i => if i == 0 then PollOutcome.waiterError "w0"
                  else if i == 1 then PollOutcome.waiterError "w1"
                  else PollOutcome.success (some [(5 : Nat)])) 3 =
        (.messages [5], [.poll, .reconnect, .poll, .reconnect, .poll]) :=
  (read_two_transients_then_success _ "w0" "w1" (some [5]) rfl rfl rfl).1

/-- C3: with `max_retry_attempts = 1`, a transient failure on the only poll raises
`HTTPClientError` (the spec's `RetryExhaustedError`) after exactly 1 poll and exactly
1 reconnect; the trace `[poll, reconnect]` records that `_init_client()` ran before
the counter check raised, so the transport handle was rebuilt even on this final
failed attempt. -/
theorem read_max_one_transient_raises {α : Type} (outcomes : Nat → PollOutcome α)
    (s0 : String) (h0 : outcomes 0 = .waiterError s0) :
    read_events_with_retry outcomes 1 =
        (.raised .httpClientError, [.poll, .reconnect]) ∧
      reconnectCount (read_events_with_retry outcomes 1).2 = 1 := by
  have htr : read_events_with_retry outcomes 1 =
      (.raised .httpClientError, [.poll, .reconnect]) := by
    rw [read_events_with_retry, readEventsLoop.eq_def]
    simp only [h0]
    norm_num
  exact ⟨htr, by rw [htr]; rfl⟩

/-- C3 witness: a concrete always-transient transport at `max_retry_attempts = 1`. -/
theorem read_max_one_transient_raises_witness :
    read_events_with_retry (fun _ => PollOutcome.waiterError "timeout" :
        Nat → PollOutcome Nat) 1 =
      (.raised .httpClientError, [.poll, .reconnect]) :=
  (read_max_one_transient_raises _ "timeout" rfl).1

/-- C4: at any attempt of any receive call, an exception other than `WaiterError`
falls through the `except WaiterError` clause: it propagates to the caller unmodified,
immediately, after that single poll, with no retry and no reconnect. -/
theorem read_nontransient_propagates {α : Type} (outcomes : Nat → PollOutcome α)
    (max_retry_attempts retry_attempt : Int) (pollIdx : Nat)
    (hle : retry_attempt ≤ max_retry_attempts) (e : String)
    (h : outcomes pollIdx = .otherError e) :
    readEventsLoop outcomes max_retry_attempts retry_attempt pollIdx =
      (.raised (.propagated e), [.poll]) := by
  rw [readEventsLoop.eq_def]
  simp [hle, h]

/-- C4 witness: an authorization-style hard failure on the first poll of a call with
`max_retry_attempts = 3` propagates unchanged with one poll and no reconnect. -/
theorem read_nontransient_propagates_witness :
    readEventsLoop (fun _ => PollOutcome.otherError "AccessDenied" :
        Nat → PollOutcome Nat) 3 1 0 =
      (.raised (.propagated "AccessDenied"), [.poll]) :=
  read_nontransient_propagates _ 3 1 0 (by decide) "AccessDenied" rfl

theorem pollCount_nil : pollCount [] = 0 := rfl

theorem reconnectCount_nil : reconnectCount [] = 0 := rfl

theorem pollCount_poll_cons (t : List Event) :
    pollCount (Event.poll :: t) = pollCount t + 1 := by
  simp [pollCount, List.count_cons]
  decide

theorem pollCount_reconnect_cons (t : List Event) :
    pollCount (Event.reconnect :: t) = pollCount t := by
  simp [pollCount, List.count_cons]
  decide

theorem reconnectCount_poll_cons (t : List Event) :
    reconnectCount (Event.poll :: t) = reconnectCount t := by
  simp [reconnectCount, List.count_cons]
  decide

theorem reconnectCount_reconnect_cons (t : List Event) :
    reconnectCount (Event.reconnect :: t) = reconnectCount t + 1 := by
  simp [reconnectCount, List.count_cons]
  decide

/-- The loop entered with counter `retry_attempt` issues at most
`max_retry_attempts + 1 - retry_attempt` polls and at most as many reconnects as
polls. -/
theorem readEventsLoop_trace_bound {α : Type} (outcomes : Nat → PollOutcome α)
    (max_retry_attempts : Int) : ∀ (n : Nat) (retry_attempt : Int) (pollIdx : Nat),
    (max_retry_attempts + 1 - retry_attempt).toNat ≤ n →
    pollCount (readEventsLoop outcomes max_retry_attempts retry_attempt pollIdx).2 ≤
        (max_retry_attempts + 1 - retry_attempt).toNat ∧
      reconnectCount
          (readEventsLoop outcomes max_retry_attempts retry_attempt pollIdx).2 ≤
        pollCount (readEventsLoop outcomes max_retry_attempts retry_attempt pollIdx).2 := by
  intro n
  induction n with
  | zero =>
      intro retry_attempt pollIdx hn
      rw [readEventsLoop.eq_def]
      have : ¬ retry_attempt ≤ max_retry_attempts := by omega
      simp [this, pollCount_nil, reconnectCount_nil]
  | succ n ih =>
      intro retry_attempt pollIdx hn
      rw [readEventsLoop.eq_def]
      by_cases hle : retry_attempt ≤ max_retry_attempts
      · rw [dif_pos hle]
        cases houtcome : outcomes pollIdx with
        | success ms =>
            simp only [pollCount_poll_cons, pollCount_nil, reconnectCount_poll_cons,
              reconnectCount_nil]
            omega
        | otherError e =>
            simp only [pollCount_poll_cons, pollCount_nil, reconnectCount_poll_cons,
              reconnectCount_nil]
            omega
        | waiterError s =>
            by_cases heq : retry_attempt = max_retry_attempts
            · rw [dif_pos heq]
              simp only [pollCount_poll_cons, pollCount_reconnect_cons, pollCount_nil,
                reconnectCount_poll_cons, reconnectCount_reconnect_cons, reconnectCount_nil]
              omega
            · rw [dif_neg heq]
              have hrec := ih (retry_attempt + 1) (pollIdx + 1) (by omega)
              simp only [pollCount_poll_cons, pollCount_reconnect_cons,
                reconnectCount_poll_cons, reconnectCount_reconnect_cons] at hrec ⊢
              omega
      · rw [dif_neg hle]
        simp [pollCount_nil, reconnectCount_nil]

/-- C5: every receive call terminates (the loop function is total by construction),
and for `max_retry_attempts ≥ 1` it issues at most `max_retry_attempts` polls and at
most `max_retry_attempts` reconnects before returning or raising. -/
theorem read_retry_budget_bounded {α : Type} (outcomes : Nat → PollOutcome α)
    (max_retry_attempts : Int) (hmax : 1 ≤ max_retry_attempts) :
    pollCount (read_events_with_retry outcomes max_retry_attempts).2 ≤
        max_retry_attempts.toNat ∧
      reconnectCount (read_events_with_retry outcomes max_retry_attempts).2 ≤
        max_retry_attempts.toNat := by
  have h := readEventsLoop_trace_bound outcomes max_retry_attempts
    (max_retry_attempts + 1 - 1).toNat 1 0 (le_refl _)
  rw [read_events_with_retry]
  have heq : (max_retry_attempts + 1 - 1).toNat = max_retry_attempts.toNat := by omega
  omega

/-- C5 witness: an always-transient transport with `max_retry_attempts = 2` stays
within 2 polls and 2 reconnects. -/
theorem read_retry_budget_bounded_witness :
    pollCount (read_events_with_retry
        (fun _ => PollOutcome.waiterError "t" : Nat → PollOutcome Nat) 2).2 ≤ 2 ∧
      reconnectCount (read_events_with_retry
        (fun _ => PollOutcome.waiterError "t" : Nat → PollOutcome Nat) 2).2 ≤ 2 :=
  read_retry_budget_bounded _ 2 (by decide)

/-- C10: with `max_retry_attempts ≤ 0` the `while` condition `1 <= max_retry_attempts`
is false at once: no poll, no reconnect, no exception, and the function falls off the
loop, returning Python `None` rather than a message list. -/
theorem read_nonpositive_max_returns_none {α : Type} (outcomes : Nat → PollOutcome α)
    (max_retry_attempts : Int) (hmax : max_retry_attempts ≤ 0) :
    read_events_with_retry outcomes max_retry_attempts = (.noneReturn, []) := by
  rw [read_events_with_retry, readEventsLoop.eq_def]
  have : ¬ (1 : Int) ≤ max_retry_attempts := by omega
  simp [this]

/-- C10 witness: `max_retry_attempts = 0` issues nothing and returns `None`. -/
theorem read_nonpositive_max_returns_none_witness :
    read_events_with_retry (fun _ => PollOutcome.success (some [(1 : Nat)])) 0 =
      (.noneReturn, []) :=
  read_nonpositive_max_returns_none _ 0 (by decide)

/-!
Registry embedding: `SQSClient.__new__` keeps a class-level `_instances` list and
returns an existing instance whose four connection fields equal the constructor
arguments (`_get_existing_instance`); CPython then runs `__init__` on the returned
object either way, which re-stores the fields and calls `_init_client()`, opening a
fresh boto3 transport handle.  Python object identity is embedded as a `Nat` object
id, and transport handles are numbered in order of creation.
-/

/-- The four constructor arguments of `SQSClient` (and the identity key for instance
deduplication). -/
structure ConnectionConfig where
  region_name : String
  aws_access_key_id : String
  aws_secret_access_key : String
  queue_url : String
deriving DecidableEq, Repr

/-- One entry of `SQSClient._instances`: `objId` is the Python object identity, the
four string fields are the attributes stored by `__init__`, and `sqs` is the transport
handle currently held. -/
structure SQSInstance where
  objId : Nat
  region_name : String
  aws_access_key_id : String
  aws_secret_access_key : String
  queue_url : String
  sqs : Nat
deriving DecidableEq, Repr

/-- The connection configuration an instance currently stores. -/
def configOf (inst : SQSInstance) : ConnectionConfig :=
  ⟨inst.region_name, inst.aws_access_key_id, inst.aws_secret_access_key, inst.queue_url⟩

/-- The four-way `==` comparison in `SQSClient._get_existing_instance`. -/
def matchesConfig (inst : SQSInstance) (c : ConnectionConfig) : Bool :=
  inst.region_name == c.region_name && inst.aws_access_key_id == c.aws_access_key_id &&
    inst.aws_secret_access_key == c.aws_secret_access_key && inst.queue_url == c.queue_url

/-- `SQSClient._get_existing_instance`: the first instance in `_instances` whose four
fields equal the arguments, if any. -/
def get_existing_instance (instances : List SQSInstance) (c : ConnectionConfig) :
    Option SQSInstance :=
  instances.find? (fun inst => matchesConfig inst c)

/-- The class-level state: the `_instances` list plus allocators for fresh object
identities and fresh transport handles. -/
structure ClientRegistry where
  instances : List SQSInstance
  nextObjId : Nat
  nextHandle : Nat
deriving DecidableEq, Repr

/-- The state before any `SQSClient` has been constructed. -/
def emptyRegistry : ClientRegistry := ⟨[], 0, 0⟩

/-- `SQSClient.__init__` run on object `inst` with arguments `c`: stores the four
fields and calls `_init_client()`, which replaces `self.sqs` by the freshly opened
handle `handle`. -/
def initInstance (inst : SQSInstance) (c : ConnectionConfig) (handle : Nat) :
    SQSInstance :=
  { inst with
    region_name := c.region_name,
    aws_access_key_id := c.aws_access_key_id,
    aws_secret_access_key := c.aws_secret_access_key,
    queue_url := c.queue_url,
    sqs := handle }

/-- The effect of the post-`__new__` `__init__` call on each entry of `_instances`:
only the returned object (identified by `target`) is re-initialized. -/
def reinitIfSame (target : Nat) (c : ConnectionConfig) (handle : Nat)
    (inst : SQSInstance) : SQSInstance :=
  if inst.objId = target then initInstance inst c handle else inst

/-- One evaluation of `SQSClient(region, key, secret, queue_url)` under CPython
semantics: `__new__` returns the existing field-wise-equal instance if
`_get_existing_instance` finds one, otherwise allocates a fresh object and appends it
to `_instances`; then `__init__` runs on the returned object in both cases.  Returns
the object id the caller receives together with the updated class state. -/
def constructClient (st : ClientRegistry) (c : ConnectionConfig) :
    Nat × ClientRegistry :=
  match get_existing_instance st.instances c with
  | some inst =>
      (inst.objId,
        { st with
          instances := st.instances.map (reinitIfSame inst.objId c st.nextHandle),
          nextHandle := st.nextHandle + 1 })
  | none =>
      (st.nextObjId,
        { instances :=
            st.instances ++ [initInstance ⟨st.nextObjId, "", "", "", "", 0⟩ c st.nextHandle],
          nextObjId := st.nextObjId + 1,
          nextHandle := st.nextHandle + 1 })

/-- Well-formedness of the class state: object ids identify instances, no two distinct
instances store the same configuration, and allocators dominate every stored id and
handle. -/
def RegistryInv (st : ClientRegistry) : Prop :=
  (∀ a ∈ st.instances, ∀ b ∈ st.instances, a.objId = b.objId → a = b) ∧
  (∀ a ∈ st.instances, ∀ b ∈ st.instances, configOf a = configOf b → a = b) ∧
  (∀ i ∈ st.instances, i.objId < st.nextObjId ∧ i.sqs < st.nextHandle)

instance (st : ClientRegistry) : Decidable (RegistryInv st) := by
  unfold RegistryInv
  infer_instance

theorem initInstance_objId (inst : SQSInstance) (c : ConnectionConfig) (h : Nat) :
    (initInstance inst c h).objId = inst.objId := rfl

theorem configOf_initInstance (inst : SQSInstance) (c : ConnectionConfig) (h : Nat) :
    configOf (initInstance inst c h) = c := by
  cases c
  rfl

theorem reinitIfSame_objId (t : Nat) (c : ConnectionConfig) (h : Nat)
    (inst : SQSInstance) : (reinitIfSame t c h inst).objId = inst.objId := by
  unfold reinitIfSame
  split <;> rfl

theorem reinitIfSame_sqs (t : Nat) (c : ConnectionConfig) (h : Nat)
    (inst : SQSInstance) :
    (reinitIfSame t c h inst).sqs = h ∨ (reinitIfSame t c h inst).sqs = inst.sqs := by
  unfold reinitIfSame
  split
  · exact Or.inl rfl
  · exact Or.inr rfl

theorem matchesConfig_iff (inst : SQSInstance) (c : ConnectionConfig) :
    matchesConfig inst c = true ↔ configOf inst = c := by
  cases c
  simp [matchesConfig, configOf, and_assoc]

theorem get_existing_instance_some (l : List SQSInstance) (c : ConnectionConfig)
    (inst : SQSInstance) (h : get_existing_instance l c = some inst) :
    inst ∈ l ∧ configOf inst = c := by
  unfold get_existing_instance at h
  have hp : matchesConfig inst c = true := by simpa using List.find?_some h
  exact ⟨List.mem_of_find?_eq_some h, (matchesConfig_iff inst c).mp hp⟩

theorem get_existing_instance_none (l : List SQSInstance) (c : ConnectionConfig)
    (h : get_existing_instance l c = none) : ∀ x ∈ l, configOf x ≠ c := by
  unfold get_existing_instance at h
  intro x hx
  have hfx := List.find?_eq_none.mp h x hx
  simpa [matchesConfig_iff] using hfx

theorem get_existing_instance_exists (l : List SQSInstance) (c : ConnectionConfig)
    (x : SQSInstance) (hx : x ∈ l) (hcfg : configOf x = c) :
    ∃ inst, get_existing_instance l c = some inst := by
  unfold get_existing_instance
  have hsome : (l.find? (fun inst => matchesConfig inst c)).isSome := by
    rw [List.find?_isSome]
    exact ⟨x, hx, (matchesConfig_iff x c).mpr hcfg⟩
  exact Option.isSome_iff_exists.mp hsome

/-- Every construction hands the caller an instance that is in the registry and stores
the requested configuration. -/
theorem constructClient_mem (st : ClientRegistry) (c : ConnectionConfig) :
    ∃ w ∈ (constructClient st c).2.instances,
      w.objId = (constructClient st c).1 ∧ configOf w = c := by
  cases hfind : get_existing_instance st.instances c with
  | some inst =>
      obtain ⟨hmem, hc⟩ := get_existing_instance_some _ _ _ hfind
      refine ⟨reinitIfSame inst.objId c st.nextHandle inst, ?_, ?_, ?_⟩
      · simp only [constructClient, hfind]
        exact List.mem_map_of_mem _ hmem
      · simp only [constructClient, hfind, reinitIfSame_objId]
      · simp [reinitIfSame, configOf_initInstance]
  | none =>
      refine ⟨initInstance ⟨st.nextObjId, "", "", "", "", 0⟩ c st.nextHandle, ?_, ?_, ?_⟩
      · simp [constructClient, hfind]
      · simp only [constructClient, hfind, initInstance_objId]
      · exact configOf_initInstance _ _ _

/-- Construction preserves the registry invariant. -/
theorem constructClient_inv (st : ClientRegistry) (c : ConnectionConfig)
    (hinv : RegistryInv st) : RegistryInv (constructClient st c).2 := by
  obtain ⟨hid, hcfg, hbound⟩ := hinv
  cases hfind : get_existing_instance st.instances c with
  | some inst =>
      obtain ⟨hmem, hc⟩ := get_existing_instance_some _ _ _ hfind
      have hpres : ∀ i ∈ st.instances,
          configOf (reinitIfSame inst.objId c st.nextHandle i) = configOf i := by
        intro i hi
        unfold reinitIfSame
        split
        case isTrue heq =>
          have hieq : i = inst := hid i hi inst hmem heq
          subst hieq
          rw [configOf_initInstance]
          exact hc.symm
        case isFalse _ => rfl
      simp only [constructClient, hfind, RegistryInv]
      refine ⟨?_, ?_, ?_⟩
      · intro a ha b hb hab
        rw [List.mem_map] at ha hb
        obtain ⟨a0, ha0, rfl⟩ := ha
        obtain ⟨b0, hb0, rfl⟩ := hb
        rw [reinitIfSame_objId, reinitIfSame_objId] at hab
        rw [hid a0 ha0 b0 hb0 hab]
      · intro a ha b hb hab
        rw [List.mem_map] at ha hb
        obtain ⟨a0, ha0, rfl⟩ := ha
        obtain ⟨b0, hb0, rfl⟩ := hb
        rw [hpres a0 ha0, hpres b0 hb0] at hab
        rw [hcfg a0 ha0 b0 hb0 hab]
      · intro i hi
        rw [List.mem_map] at hi
        obtain ⟨i0, hi0, rfl⟩ := hi
        have hb0 := hbound i0 hi0
        rcases reinitIfSame_sqs inst.objId c st.nextHandle i0 with hs | hs <;>
          rw [reinitIfSame_objId, hs] <;> omega
  | none =>
      have hnone := get_existing_instance_none _ _ hfind
      simp only [constructClient, hfind, RegistryInv]
      refine ⟨?_, ?_, ?_⟩
      · intro a ha b hb hab
        rw [List.mem_append, List.mem_singleton] at ha hb
        rcases ha with ha | rfl <;> rcases hb with hb | rfl
        · exact hid a ha b hb hab
        · exact absurd hab (by have := (hbound a ha).1; simp [initInstance]; omega)
        · exact absurd hab (by have := (hbound b hb).1; simp [initInstance]; omega)
        · rfl
      · intro a ha b hb hab
        rw [List.mem_append, List.mem_singleton] at ha hb
        rcases ha with ha | rfl <;> rcases hb with hb | rfl
        · exact hcfg a ha b hb hab
        · exact absurd hab (by rw [configOf_initInstance]; exact hnone a ha)
        · exact absurd hab (by rw [configOf_initInstance]; exact fun h => hnone b hb h.symm)
        · rfl
      · intro i hi
        rw [List.mem_append, List.mem_singleton] at hi
        rcases hi with hi | rfl
        · have := hbound i hi
          omega
        · simp [initInstance]

/-- A concrete connection configuration used to instantiate registry theorems. -/
def cfgA : ConnectionConfig :=
  ⟨"eu-west-1", "AKIAEXAMPLE", "secretkey", "https://sqs.eu-west-1.example/queue-a"⟩

/-- A second configuration, differing from `cfgA` in the queue endpoint only. -/
def cfgB : ConnectionConfig :=
  ⟨"eu-west-1", "AKIAEXAMPLE", "secretkey", "https://sqs.eu-west-1.example/queue-b"⟩

/-- The instance that constructing `cfgA` in the empty registry creates. -/
def instA : SQSInstance :=
  ⟨0, "eu-west-1", "AKIAEXAMPLE", "secretkey", "https://sqs.eu-west-1.example/queue-a", 0⟩

/-- C6: starting from any well-formed registry state, constructing with `c1` and then
with `c2` returns the same instance exactly when the two configurations agree on all
four fields, and afterwards the registry still holds no two distinct instances with
identical configuration. -/
theorem registry_dedup_by_config (st : ClientRegistry) (hinv : RegistryInv st)
    (c1 c2 : ConnectionConfig) :
    (c1 = c2 →
      (constructClient (constructClient st c1).2 c2).1 = (constructClient st c1).1) ∧
    (c1 ≠ c2 →
      (constructClient (constructClient st c1).2 c2).1 ≠ (constructClient st c1).1) ∧
    (∀ a ∈ (constructClient (constructClient st c1).2 c2).2.instances,
      ∀ b ∈ (constructClient (constructClient st c1).2 c2).2.instances,
        configOf a = configOf b → a = b) := by
  have hinv1 : RegistryInv (constructClient st c1).2 := constructClient_inv st c1 hinv
  have hinv2 : RegistryInv (constructClient (constructClient st c1).2 c2).2 :=
    constructClient_inv _ c2 hinv1
  obtain ⟨w, hwmem, hwid, hwcfg⟩ := constructClient_mem st c1
  set p1 := constructClient st c1 with hp1
  refine ⟨?_, ?_, hinv2.2.1⟩
  · rintro rfl
    obtain ⟨j, hj⟩ := get_existing_instance_exists p1.2.instances c1 w hwmem hwcfg
    obtain ⟨hjmem, hjcfg⟩ := get_existing_instance_some _ _ _ hj
    have hjw : j = w := hinv1.2.1 j hjmem w hwmem (hjcfg.trans hwcfg.symm)
    simp only [constructClient, hj]
    rw [hjw, hwid]
  · intro hne
    cases hfind : get_existing_instance p1.2.instances c2 with
    | some j =>
        obtain ⟨hjmem, hjcfg⟩ := get_existing_instance_some _ _ _ hfind
        simp only [constructClient, hfind]
        intro heq
        have hjw : j = w := hinv1.1 j hjmem w hwmem (by rw [heq, hwid])
        exact hne (hwcfg.symm.trans (hjw ▸ hjcfg))
    | none =>
        simp only [constructClient, hfind]
        have hwlt := (hinv1.2.2 w hwmem).1
        intro heq
        rw [← hwid] at heq
        omega

/-- C6 witness: in the initially empty registry, constructing `cfgA` twice returns the
same instance, while constructing `cfgA` then `cfgB` returns distinct instances. -/
theorem registry_dedup_by_config_witness :
    (constructClient (constructClient emptyRegistry cfgA).2 cfgA).1 =
        (constructClient emptyRegistry cfgA).1 ∧
      (constructClient (constructClient emptyRegistry cfgA).2 cfgB).1 ≠
        (constructClient emptyRegistry cfgA).1 :=
  ⟨(registry_dedup_by_config emptyRegistry (by decide) cfgA cfgA).1 rfl,
   (registry_dedup_by_config emptyRegistry (by decide) cfgA cfgB).2.1 (by decide)⟩

/-- C7 counterexample: constructing `cfgA` in the empty registry yields one instance
holding transport handle 0; constructing an equal configuration again returns that very
instance but with transport handle 1, and the handle allocator has advanced to 2 —
`__init__` re-ran `_init_client()`, so a new transport connection was opened and the
old handle was not kept, contradicting the claim. -/
theorem construct_equal_config_new_handle_counterexample :
    (constructClient emptyRegistry cfgA).2.instances = [instA] ∧
      (constructClient (constructClient emptyRegistry cfgA).2 cfgA).1 = instA.objId ∧
      (constructClient (constructClient emptyRegistry cfgA).2 cfgA).2.instances =
        [{ instA with sqs := 1 }] ∧
      (constructClient (constructClient emptyRegistry cfgA).2 cfgA).2.nextHandle = 2 := by
  decide

/-- C7 amended: constructing with a configuration equal to an existing instance's does
return that same instance (no new instance is registered), but `__init__` still runs:
`_init_client` opens the fresh transport handle `st.nextHandle`, which replaces the
handle the instance previously held — the previous handle is never equal to the new
one, so the underlying transport connection is not reused. -/
theorem construct_equal_config_same_instance_new_handle (st : ClientRegistry)
    (hinv : RegistryInv st) (c : ConnectionConfig) (inst : SQSInstance)
    (hfind : get_existing_instance st.instances c = some inst) :
    (constructClient st c).1 = inst.objId ∧
      initInstance inst c st.nextHandle ∈ (constructClient st c).2.instances ∧
      inst.sqs ≠ st.nextHandle ∧
      (constructClient st c).2.nextHandle = st.nextHandle + 1 := by
  obtain ⟨hmem, hc⟩ := get_existing_instance_some _ _ _ hfind
  refine ⟨?_, ?_, ?_, ?_⟩
  · simp [constructClient, hfind]
  · simp only [constructClient, hfind]
    have hr : reinitIfSame inst.objId c st.nextHandle inst =
        initInstance inst c st.nextHandle := by
      simp [reinitIfSame]
    exact hr ▸ List.mem_map_of_mem _ hmem
  · have := (hinv.2.2 inst hmem).2
    omega
  · simp [constructClient, hfind]

/-- C7 amended witness: the second construction of `cfgA` hands back instance 0 with
the freshly opened handle 1 in place of handle 0. -/
theorem construct_equal_config_same_instance_new_handle_witness :
    (constructClient (constructClient emptyRegistry cfgA).2 cfgA).1 = instA.objId ∧
      initInstance instA cfgA (constructClient emptyRegistry cfgA).2.nextHandle ∈
        (constructClient (constructClient emptyRegistry cfgA).2 cfgA).2.instances ∧
      instA.sqs ≠ (constructClient emptyRegistry cfgA).2.nextHandle ∧
      (constructClient (constructClient emptyRegistry cfgA).2 cfgA).2.nextHandle =
        (constructClient emptyRegistry cfgA).2.nextHandle + 1 :=
  construct_equal_config_same_instance_new_handle
    (constructClient emptyRegistry cfgA).2 (by decide) cfgA instA (by decide)

/-!
Builder embedding: `SQSClientBuilder` starts with all four fields `None`; `build`
collects the fields for which Python `not field` holds (`None` or the empty string),
raises `ValueError("Missing required SQS connection parameters: ...")` listing them if
any, and otherwise constructs the `SQSClient`.  The spec names this failure
`ConfigurationError`.
-/

/-- The mutable state of `SQSClientBuilder` at the moment `build` is called. -/
structure SQSClientBuilder where
  region_name : Option String
  aws_access_key_id : Option String
  aws_secret_access_key : Option String
  queue_url : Option String
deriving DecidableEq, Repr

/-- Python truthiness test `not field` for an optional string: `None` and `''` are
falsy. -/
def isBlank : Option String → Bool
  | none => true
  | some s => s == ""

/-- The `missing_fields` list `SQSClientBuilder.build` accumulates, in source order. -/
def missing_fields (b : SQSClientBuilder) : List String :=
  (if isBlank b.region_name then ["region_name"] else []) ++
    (if isBlank b.aws_access_key_id then ["aws_access_key_id"] else []) ++
    (if isBlank b.aws_secret_access_key then ["aws_secret_access_key"] else []) ++
    (if isBlank b.queue_url then ["queue_url"] else [])

/-- `SQSClientBuilder.build` against class state `st`: raise `ValueError` carrying the
missing-field list if it is non-empty, otherwise construct `SQSClient` from the four
(now non-blank) fields. -/
def build (b : SQSClientBuilder) (st : ClientRegistry) :
    Except (List String) (Nat × ClientRegistry) :=
  if missing_fields b = [] then
    Except.ok (constructClient st
      ⟨b.region_name.getD "", b.aws_access_key_id.getD "",
        b.aws_secret_access_key.getD "", b.queue_url.getD ""⟩)
  else
    Except.error (missing_fields b)

/-- C8: if any of the four connection fields is empty or missing, `build` fails with
the validation error naming exactly the set of missing fields (each field appears in
the error list precisely when it is blank, and nothing else appears); if all four are
non-empty, `build` succeeds with a constructed client and no such error. -/
theorem build_validates_fields (b : SQSClientBuilder) (st : ClientRegistry) :
    ((isBlank b.region_name = true ∨ isBlank b.aws_access_key_id = true ∨
        isBlank b.aws_secret_access_key = true ∨ isBlank b.queue_url = true) →
      (build b st = Except.error (missing_fields b) ∧
        ("region_name" ∈ missing_fields b ↔ isBlank b.region_name = true) ∧
        ("aws_access_key_id" ∈ missing_fields b ↔ isBlank b.aws_access_key_id = true) ∧
        ("aws_secret_access_key" ∈ missing_fields b ↔
          isBlank b.aws_secret_access_key = true) ∧
        ("queue_url" ∈ missing_fields b ↔ isBlank b.queue_url = true) ∧
        (∀ f ∈ missing_fields b, f = "region_name" ∨ f = "aws_access_key_id" ∨
          f = "aws_secret_access_key" ∨ f = "queue_url"))) ∧
    ((isBlank b.region_name = false ∧ isBlank b.aws_access_key_id = false ∧
        isBlank b.aws_secret_access_key = false ∧ isBlank b.queue_url = false) →
      build b st = Except.ok (constructClient st
        ⟨b.region_name.getD "", b.aws_access_key_id.getD "",
          b.aws_secret_access_key.getD "", b.queue_url.getD ""⟩)) := by
  cases hr : isBlank b.region_name <;> cases ha : isBlank b.aws_access_key_id <;>
    cases hs : isBlank b.aws_secret_access_key <;> cases hq : isBlank b.queue_url <;>
    simp [build, missing_fields, hr, ha, hs, hq]

/-- C8 witness: a builder missing the credentials fails naming exactly those two
fields; a fully populated builder constructs a client. -/
theorem build_validates_fields_witness :
    build ⟨some "eu-west-1", none, some "", some "https://queue"⟩ emptyRegistry =
        Except.error ["aws_access_key_id", "aws_secret_access_key"] ∧
      build ⟨some "eu-west-1", some "AK", some "SK", some "https://queue"⟩
          emptyRegistry =
        Except.ok (constructClient emptyRegistry
          ⟨"eu-west-1", "AK", "SK", "https://queue"⟩) := by
  constructor
  · have h := ((build_validates_fields
        ⟨some "eu-west-1", none, some "", some "https://queue"⟩ emptyRegistry).1
        (Or.inr (Or.inl (by decide)))).1
    exact h.trans (congrArg Except.error (by decide))
  · have h := (build_validates_fields
        ⟨some "eu-west-1", some "AK", some "SK", some "https://queue"⟩ emptyRegistry).2
        (by decide)
    exact h

/-!
Purge embedding: `SQSClient.purge` wraps `self.sqs.purge_queue(QueueUrl=...)` in
`try`/`except Exception`, printing a message in both branches and returning `None` in
both branches.
-/

/-- Outcome of the underlying `purge_queue` transport call. -/
inductive PurgeOutcome where
  | ok
  | fail (e : String)
deriving DecidableEq, Repr

/-- Observable behaviour of one `SQSClient.purge()` call: `raised` is the exception
surfaced to the caller (`none` when the call returns normally) and `printed` the lines
written with `print`. -/
structure PurgeBehavior where
  raised : Option String
  printed : List String
deriving DecidableEq, Repr

/-- `SQSClient.purge()`: on transport success it prints the success line; on any
transport exception the bare `except Exception` clause catches it and prints the
failure line.  Neither branch re-raises, so the call returns `None` in both cases. -/
def purge : PurgeOutcome → PurgeBehavior
  | .ok => ⟨none, ["All messages have been purged from the queue."]⟩
  | .fail e => ⟨none, ["Failed to purge the queue: " ++ e]⟩

/-- C9 counterexample: when the transport purge fails with `AccessDenied`, the call
returns normally (`raised = none`) and the failure is only printed — the error is
swallowed, not surfaced to the caller, refuting the claim. -/
theorem purge_error_surfaced_counterexample :
    (purge (PurgeOutcome.fail "AccessDenied")).raised = none ∧
      ¬ (purge (PurgeOutcome.fail "AccessDenied")).raised.isSome = true ∧
      (purge (PurgeOutcome.fail "AccessDenied")).printed =
        ["Failed to purge the queue: AccessDenied"] := by
  decide

/-- C9 amended: on every transport purge failure, `purge` catches the exception,
prints the failure message, and returns `None` without raising; the error reaches the
caller only through the printed text. -/
theorem purge_failure_swallowed (e : String) :
    purge (PurgeOutcome.fail e) = ⟨none, ["Failed to purge the queue: " ++ e]⟩ := rfl

end SimpleSqsClient
